import Mathlib

/-!
# `encrypt_with_key` (ext/nokogiri_ext_xmlsec/nokogiri_encrypt_with_key.c)

A shallow embedding of the C function `encrypt_with_key`.  The function is a
straight chain of fallible calls into Ruby, libxml2 and xmlsec with a single
`done:` label.  The embedding keeps

* the C locals (`encDataNode`, `encKeyNode`, `keyInfoNode`, `encCtx`,
  `keyManager`, `rb_exception_result`, `exception_message`) in a `Frame`,
* the process-wide error slot and error callback in the same `Frame`,
* a chronological trace of every external call together with the status it
  returned.

The outcome of every external call is supplied by an environment `Env`, so
each theorem quantifies over all behaviours of the libraries.
-/

namespace XmlSecEncrypt

/-! ## Ruby values -/

/-- Exception classes: the three classes named in the source plus the two
Ruby classes raised by `Check_Type` and `StringValueCStr`; `other` stands for
any further class a helper may report. -/
inductive ExcClass
  | rb_eTypeError
  | rb_eArgError
  | rb_eEncryptionError
  | rb_eDecryptionError
  | rb_eSigningError
  | other (name : String)
  deriving DecidableEq, Repr

/-- Ruby type tags used by `Check_Type`. -/
inductive RType
  | T_NIL
  | T_STRING
  | T_FIXNUM
  | T_HASH
  deriving DecidableEq, Repr

/-- Ruby values the function can receive.  Hash keys are symbols, written by
their name. -/
inductive VALUE
  | Qnil
  | T_STRING (bytes : String)
  | T_FIXNUM (n : Int)
  | T_HASH (entries : List (String × VALUE))

/-- Type tag of a Ruby value. -/
def VALUE.type : VALUE → RType
  | .Qnil => .T_NIL
  | .T_STRING _ => .T_STRING
  | .T_FIXNUM _ => .T_FIXNUM
  | .T_HASH _ => .T_HASH

/-- The tests `NIL_P(v)` and `v == Qnil`. -/
def NIL_P : VALUE → Bool
  | .Qnil => true
  | _ => false

/-- The lookup `rb_hash_aref(hash, ID2SYM(rb_intern(sym)))`: the stored value, `Qnil`
when the key is missing. -/
def rb_hash_aref (hash : VALUE) (sym : String) : VALUE :=
  match hash with
  | .T_HASH entries =>
    match entries.lookup sym with
    | some v => v
    | none => .Qnil
  | _ => .Qnil

/-- The accessor `RSTRING_PTR(v)`: the bytes of a string value. -/
def RSTRING_PTR : VALUE → String
  | .T_STRING s => s
  | _ => ""

/-- The accessor `RSTRING_LEN(v)` stored into an `unsigned int`. -/
def RSTRING_LEN (v : VALUE) : Nat :=
  (RSTRING_PTR v).utf8ByteSize % 2 ^ 32

/-- Name Ruby prints for the class of a value in a type error. -/
def className : VALUE → String
  | .Qnil => "nil"
  | .T_STRING _ => "String"
  | .T_FIXNUM _ => "Integer"
  | .T_HASH _ => "Hash"

/-- Name Ruby prints for an expected type tag. -/
def typeName : RType → String
  | .T_NIL => "nil"
  | .T_STRING => "String"
  | .T_FIXNUM => "Integer"
  | .T_HASH => "Hash"

/-- Message of the `TypeError` raised by `Check_Type`. -/
def typeErrorMessage (v : VALUE) (t : RType) : String :=
  "wrong argument type " ++ className v ++ " (expected " ++ typeName t ++ ")"

/-- Message of the `ArgumentError` raised by `StringValueCStr`. -/
def nullByteMessage : String := "string contains null byte"

/-- Whether a byte string contains a NUL byte. -/
def hasNullByte (s : String) : Bool :=
  s.data.any (fun c => c.toNat == 0)

/-! ## Template nodes, calls, environment -/

/-- The nodes of the encryption template, named by the element they hold.
`EncryptedKeyCipherValue` is the `CipherValue` below `EncryptedKey`. -/
inductive TNode
  | EncryptedData
  | CipherValue
  | KeyInfo
  | X509Data
  | KeyName
  | EncryptedKey
  | EncryptedKeyCipherValue
  deriving DecidableEq, Repr

/-- Arguments that are type checked. -/
inductive Arg
  | rb_rsa_key
  | rb_opts
  | rb_rsa_key_name
  | rb_cert
  deriving DecidableEq, Repr

/-- The `type` argument of `xmlSecTmplEncDataCreate`. -/
inductive EncType
  | xmlSecTypeEncElement
  | xmlSecTypeEncContent
  deriving DecidableEq, Repr

/-- The key data type argument of `xmlSecKeyGenerateByName`. -/
inductive KeyDataType
  | xmlSecKeyDataTypeSession
  | xmlSecKeyDataTypePermanent
  deriving DecidableEq, Repr

/-- Error callbacks of xmlsec: the library default and the one that stores
the diagnostic in the last-error slot. -/
inductive Callback
  | xmlSecErrorsDefaultCallback
  | storeErrorCallback
  deriving DecidableEq, Repr

/-- Every external call `encrypt_with_key` makes, with the arguments that
matter. -/
inductive Call
  | resetXmlSecError
  | Check_Type (a : Arg) (t : RType)
  | StringValueCStr (a : Arg)
  | GetXmlEncOptions
  | xmlSecTmplEncDataCreate (encMethodId : String) (type : EncType)
  | xmlSecTmplEncDataEnsureCipherValue (encNode : TNode)
  | xmlSecTmplEncDataEnsureKeyInfo (encNode : TNode)
  | xmlSecTmplKeyInfoAddX509Data (keyInfoNode : TNode)
  | xmlSecTmplKeyInfoAddKeyName (keyInfoNode : TNode)
  | createKeyManagerWithSingleKey (key : String) (keyLength : Nat) (keyName : Option String)
  | xmlSecEncCtxCreate
  | xmlSecKeyGenerateByName (name : String) (sizeBits : Int) (type : KeyDataType)
  | xmlSecCryptoAppKeyCertLoadMemory (data : String) (dataSize : Nat)
  | xmlSecKeySetName (name : String)
  | xmlSecTmplKeyInfoAddEncryptedKey (keyInfoNode : TNode) (encMethodId : String)
  | xmlSecEncCtxXmlEncrypt (tmpl : TNode) (node : Nat)
  | xmlSecEncCtxDestroy
  | xmlFreeNode (cur : TNode)
  | xmlSecKeysMngrDestroy
  | xmlSecErrorsSetCallback (callback : Callback)
  deriving DecidableEq, Repr

/-- The options record filled by `GetXmlEncOptions` (declared in options.h):
the fields `encrypt_with_key` reads. -/
structure XmlEncOptions where
  block_encryption : String
  key_type : String
  key_bits : Int
  key_transport : String
  deriving DecidableEq, Repr

/-- Behaviour of the code outside this file during one call.

`xmlsec c` is the status the library call `c` returns (`true`: non-NULL or
non-negative).  `diag c` is the text, if any, that the call reports through
the xmlsec error callback.

Modelled from the spec: `GetXmlEncOptions` (options.h) and
`createKeyManagerWithSingleKey` (util.h) are not in this file; following
sections 4.1, 6 and 7 of the specification they either succeed or report a
classified error (class and message) through their out-parameters. -/
structure Env where
  xmlsec : Call → Bool
  diag : Call → Option String
  GetXmlEncOptions : VALUE → Except (ExcClass × String) XmlEncOptions
  createKeyManagerWithSingleKey : String → Nat → Option String → Except (ExcClass × String) Unit

/-- Process-wide state at call entry. -/
structure World where
  lastError : Option String
  callback : Callback

/-- C locals of `encrypt_with_key` together with the process-wide error
state, the document flag and the trace of calls made so far. -/
structure Frame where
  trace : List (Call × Bool)
  lastError : Option String
  callback : Callback
  spliced : Bool
  encDataNode : Option TNode
  encKeyNode : Option TNode
  keyInfoNode : Option TNode
  encCtx : Bool
  keyManager : Bool
  rb_exception_result : Option ExcClass
  exception_message : Option String

/-- Locals at function entry (lines 14-29). -/
@[simps]
def Frame.entry (w : World) : Frame :=
  { trace := [], lastError := w.lastError, callback := w.callback, spliced := false,
    encDataNode := none, encKeyNode := none, keyInfoNode := none,
    encCtx := false, keyManager := false,
    rb_exception_result := none, exception_message := none }

/-- Record a call that does not go through xmlsec. -/
@[simps]
def Frame.log (f : Frame) (c : Call) (ok : Bool) : Frame :=
  { f with trace := f.trace ++ [(c, ok)] }

/-- Modelled from the spec: the error callback of util.h is not in this file;
a diagnostic reaches the last-error slot only while the storing callback is
installed ("a last error slot that every step may set"). -/
def storeError : Callback → Option String → Option String → Option String
  | .storeErrorCallback, some d, _ => some d
  | _, _, old => old

/-- Record a call into xmlsec (or into a helper that calls xmlsec): the call
is appended to the trace and its diagnostic, if any, reaches the slot. -/
@[simps]
def Frame.perform (f : Frame) (env : Env) (c : Call) (ok : Bool) : Frame :=
  { f with trace := f.trace ++ [(c, ok)],
           lastError := storeError f.callback (env.diag c) f.lastError }

/-- Modelled from the spec: `resetXmlSecError` (util.h) is not in this file;
it empties the last-error slot and routes xmlsec diagnostics into it. -/
@[simps]
def resetXmlSecError (f : Frame) : Frame :=
  { f with trace := f.trace ++ [(Call.resetXmlSecError, true)],
           lastError := none, callback := .storeErrorCallback }

/-- The two assignments before every `goto done`. -/
@[simps]
def Frame.fail (f : Frame) (cls : ExcClass) (msg : String) : Frame :=
  { f with rb_exception_result := some cls, exception_message := some msg }

/-- Assignment to the local `encDataNode`. -/
@[simps]
def Frame.setEncDataNode (f : Frame) (n : Option TNode) : Frame :=
  { f with encDataNode := n }

/-- Assignment to the local `encKeyNode`. -/
@[simps]
def Frame.setEncKeyNode (f : Frame) (n : Option TNode) : Frame :=
  { f with encKeyNode := n }

/-- Assignment to the local `keyInfoNode`. -/
@[simps]
def Frame.setKeyInfoNode (f : Frame) (n : Option TNode) : Frame :=
  { f with keyInfoNode := n }

/-- Assignment to the local `keyManager` (`true`: non-NULL). -/
@[simps]
def Frame.setKeyManager (f : Frame) (b : Bool) : Frame :=
  { f with keyManager := b }

/-- Assignment to the local `encCtx` (`true`: non-NULL). -/
@[simps]
def Frame.setEncCtx (f : Frame) (b : Bool) : Frame :=
  { f with encCtx := b }

/-- Effect of a successful `xmlSecEncCtxXmlEncrypt` on the document: the
template replaces the target node. -/
@[simps]
def Frame.splice (f : Frame) : Frame :=
  { f with spliced := true }

/-- Line 203: `xmlSecErrorsSetCallback(xmlSecErrorsDefaultCallback)`. -/
@[simps]
def Frame.restoreCallback (f : Frame) : Frame :=
  { f with trace := f.trace ++ [(Call.xmlSecErrorsSetCallback .xmlSecErrorsDefaultCallback, true)],
           callback := .xmlSecErrorsDefaultCallback }

/-- One checked library call: perform it; on failure set the exception class
and message and `goto done` (`Except.error`), otherwise fall through. -/
def call (env : Env) (c : Call) (cls : ExcClass) (msg : String) (f : Frame) :
    Except Frame Frame :=
  if env.xmlsec c = true then .ok (f.perform env c true)
  else .error ((f.perform env c false).fail cls msg)

/-- The check `Check_Type(v, t)`: falls through when the tag matches, otherwise raises
`TypeError` at once (no `goto done`). -/
def checkType (f : Frame) (a : Arg) (v : VALUE) (t : RType) :
    Except (ExcClass × String × Frame) Frame :=
  if v.type = t then .ok (f.log (.Check_Type a t) true)
  else .error (.rb_eTypeError, typeErrorMessage v t, f.log (.Check_Type a t) false)

/-- The conversion `StringValueCStr(v)` on a string value: raises `ArgumentError` when the
string holds a NUL byte. -/
def stringValueCStr (f : Frame) (a : Arg) (v : VALUE) :
    Except (ExcClass × String × Frame) (String × Frame) :=
  if hasNullByte (RSTRING_PTR v) = true then
    .error (.rb_eArgError, nullByteMessage, f.log (.StringValueCStr a) false)
  else .ok (RSTRING_PTR v, f.log (.StringValueCStr a) true)

/-- The string locals set by lines 36-48. -/
structure Locals where
  key : String
  keyLength : Nat
  keyName : Option String
  certificate : Option String
  certificateLength : Nat
  deriving DecidableEq, Repr

/-- Lines 31-48: reset of the error slot, type checks, extraction of the
strings.  `Except.error` is a Ruby exception raised inside a check. -/
def argumentChecks (w : World) (rb_rsa_key_name rb_rsa_key rb_opts : VALUE) :
    Except (ExcClass × String × Frame) (Locals × Frame) := do
  let f := resetXmlSecError (Frame.entry w)
  let f ← checkType f .rb_rsa_key rb_rsa_key .T_STRING
  let f ← checkType f .rb_opts rb_opts .T_HASH
  let key := RSTRING_PTR rb_rsa_key
  let keyLength := RSTRING_LEN rb_rsa_key
  let (keyName, f) ←
    if NIL_P rb_rsa_key_name = true then
      (pure (none, f) : Except (ExcClass × String × Frame) (Option String × Frame))
    else do
      let f ← checkType f .rb_rsa_key_name rb_rsa_key_name .T_STRING
      let (s, f) ← stringValueCStr f .rb_rsa_key_name rb_rsa_key_name
      pure (some s, f)
  let rb_cert := rb_hash_aref rb_opts "cert"
  let (certificate, certificateLength, f) ←
    if NIL_P rb_cert = true then
      (pure (none, 0, f) : Except (ExcClass × String × Frame) (Option String × Nat × Frame))
    else do
      let f ← checkType f .rb_cert rb_cert .T_STRING
      pure (some (RSTRING_PTR rb_cert), RSTRING_LEN rb_cert, f)
  pure ({ key := key, keyLength := keyLength, keyName := keyName,
          certificate := certificate, certificateLength := certificateLength }, f)

/-- Lines 50-182: everything between the argument checks and the `done:` label.
`Except.error f` is a `goto done` with locals `f`; `Except.ok f` is the fall
through after line 182. -/
def body (env : Env) (self : Nat) (a : Locals) (rb_opts : VALUE) (f : Frame) :
    Except Frame Frame := do
  -- lines 50-54
  let (options, f) ←
    match env.GetXmlEncOptions rb_opts with
    | .error e =>
      (.error ((f.perform env .GetXmlEncOptions false).fail e.1 e.2) :
        Except Frame (XmlEncOptions × Frame))
    | .ok o => pure (o, f.perform env .GetXmlEncOptions true)
  -- lines 61-67
  let f ← call env (.xmlSecTmplEncDataCreate options.block_encryption .xmlSecTypeEncElement)
    .rb_eEncryptionError "failed to create encryption template" f
  let f := f.setEncDataNode (some .EncryptedData)
  -- lines 70-74
  let f ← call env (.xmlSecTmplEncDataEnsureCipherValue .EncryptedData)
    .rb_eEncryptionError "failed to add CipherValue node" f
  -- lines 78-83
  let f ← call env (.xmlSecTmplEncDataEnsureKeyInfo .EncryptedData)
    .rb_eEncryptionError "failed to add key info" f
  let f := f.setKeyInfoNode (some .KeyInfo)
  -- lines 85-92
  let f ←
    match a.certificate with
    | some _ =>
      call env (.xmlSecTmplKeyInfoAddX509Data .KeyInfo)
        .rb_eSigningError "failed to add X509Data node" f
    | none => pure f
  -- lines 94-100
  let f ←
    match a.keyName with
    | some _ =>
      call env (.xmlSecTmplKeyInfoAddKeyName .KeyInfo)
        .rb_eEncryptionError "failed to add key name" f
    | none => pure f
  -- lines 102-108
  let f ←
    match env.createKeyManagerWithSingleKey a.key a.keyLength a.keyName with
    | .error e =>
      (.error ((f.perform env (.createKeyManagerWithSingleKey a.key a.keyLength a.keyName)
        false).fail e.1 e.2) : Except Frame Frame)
    | .ok _ =>
      pure (f.perform env (.createKeyManagerWithSingleKey a.key a.keyLength a.keyName) true)
  let f := f.setKeyManager true
  -- lines 111-116
  let f ← call env .xmlSecEncCtxCreate
    .rb_eEncryptionError "failed to create encryption context" f
  let f := f.setEncCtx true
  -- lines 124-131
  let f ← call env
    (.xmlSecKeyGenerateByName options.key_type options.key_bits .xmlSecKeyDataTypeSession)
    .rb_eDecryptionError "failed to generate session key" f
  -- lines 133-143
  let f ←
    match a.certificate with
    | some cert =>
      call env (.xmlSecCryptoAppKeyCertLoadMemory cert a.certificateLength)
        .rb_eSigningError "failed to load certificate" f
    | none => pure f
  -- lines 146-152
  let f ←
    match a.keyName with
    | some name =>
      call env (.xmlSecKeySetName name)
        .rb_eEncryptionError "failed to set key name" f
    | none => pure f
  -- lines 156-166
  let f ← call env (.xmlSecTmplKeyInfoAddEncryptedKey .KeyInfo options.key_transport)
    .rb_eEncryptionError "failed to add encrypted key node" f
  let f := f.setEncKeyNode (some .EncryptedKey)
  -- lines 167-171
  let f ← call env (.xmlSecTmplEncDataEnsureCipherValue .EncryptedKey)
    .rb_eEncryptionError "failed to add encrypted cipher value" f
  -- lines 174-178
  let f ← call env (.xmlSecEncCtxXmlEncrypt .EncryptedData self)
    .rb_eEncryptionError "encryption failed" f
  -- the template now replaces the target node in the document
  let f := f.splice
  -- lines 181-182
  let f := f.setEncDataNode none
  let f := f.setEncKeyNode none
  pure f

/-- Locals at the `done:` label, whichever way it was reached. -/
def atDone : Except Frame Frame → Frame
  | .ok f => f
  | .error f => f

/-- Lines 186-203: the cleanup section. -/
def cleanup (env : Env) (f : Frame) : Frame :=
  let f := if f.encCtx = true then f.perform env .xmlSecEncCtxDestroy true else f
  let f :=
    match f.encKeyNode with
    | some n => f.perform env (.xmlFreeNode n) true
    | none => f
  let f :=
    match f.encDataNode with
    | some n => f.perform env (.xmlFreeNode n) true
    | none => f
  let f := if f.keyManager = true then f.perform env .xmlSecKeysMngrDestroy true else f
  f.restoreCallback

/-- How a call ends: `return Qnil` or a Ruby exception. -/
inductive Outcome
  | returned
  | raised (cls : ExcClass) (msg : String)
  deriving DecidableEq, Repr

/-- The text `rb_raise` builds at lines 207 and 210. -/
def raisedMessage (msg : String) (lastError : Option String) : String :=
  match lastError with
  | some d => msg ++ ", XmlSec error: " ++ d
  | none => msg

/-- Lines 205-214. -/
def finish (f : Frame) : Outcome :=
  match f.rb_exception_result with
  | some cls => .raised cls (raisedMessage (f.exception_message.getD "(null)") f.lastError)
  | none => .returned

/-- Outcome of a call and the state it leaves behind. -/
structure Result where
  outcome : Outcome
  frame : Frame

/-- The end of the function: raise or return with the state `f`. -/
def Result.atExit (f : Frame) : Result :=
  { outcome := finish f, frame := f }

/-- The function `encrypt_with_key` (lines 12-215).  `self` is the target
node. -/
def encrypt_with_key (env : Env) (w : World) (self : Nat)
    (rb_rsa_key_name rb_rsa_key rb_opts : VALUE) : Result :=
  match argumentChecks w rb_rsa_key_name rb_rsa_key rb_opts with
  | .error (cls, msg, f) => { outcome := .raised cls msg, frame := f }
  | .ok (a, f) => Result.atExit (cleanup env (atDone (body env self a rb_opts f)))

/-- Whether the call gets past the argument checks of lines 33-48 and so
reaches the `done:` label. -/
def reachesCleanup (w : World) (rb_rsa_key_name rb_rsa_key rb_opts : VALUE) : Bool :=
  match argumentChecks w rb_rsa_key_name rb_rsa_key rb_opts with
  | .ok _ => true
  | .error _ => false

/-- State right after line 31 with an empty trace, all locals unset; `t` is
the trace so far. -/
@[simps]
def Frame.checked (t : List (Call × Bool)) : Frame :=
  { trace := t, lastError := none, callback := .storeErrorCallback, spliced := false,
    encDataNode := none, encKeyNode := none, keyInfoNode := none,
    encCtx := false, keyManager := false,
    rb_exception_result := none, exception_message := none }

/-- The trace of lines 31-48 when every check passes. -/
def checkedTrace (rb_rsa_key_name rb_opts : VALUE) : List (Call × Bool) :=
  [(Call.resetXmlSecError, true), (Call.Check_Type .rb_rsa_key .T_STRING, true),
   (Call.Check_Type .rb_opts .T_HASH, true)]
  ++ (if NIL_P rb_rsa_key_name = true then []
      else [(Call.Check_Type .rb_rsa_key_name .T_STRING, true),
            (Call.StringValueCStr .rb_rsa_key_name, true)])
  ++ (if NIL_P (rb_hash_aref rb_opts "cert") = true then []
      else [(Call.Check_Type .rb_cert .T_STRING, true)])

/-- The string locals when every check passes. -/
def checkedLocals (rb_rsa_key_name rb_rsa_key rb_opts : VALUE) : Locals :=
  { key := RSTRING_PTR rb_rsa_key
    keyLength := RSTRING_LEN rb_rsa_key
    keyName := if NIL_P rb_rsa_key_name = true then none else some (RSTRING_PTR rb_rsa_key_name)
    certificate :=
      if NIL_P (rb_hash_aref rb_opts "cert") = true then none
      else some (RSTRING_PTR (rb_hash_aref rb_opts "cert"))
    certificateLength :=
      if NIL_P (rb_hash_aref rb_opts "cert") = true then 0
      else RSTRING_LEN (rb_hash_aref rb_opts "cert") }

/-! ## The body as a list of steps -/

/-- One checked step of the body: the call, the status it returns, the
exception class and message assigned when it fails, and the assignment made
when it succeeds. -/
structure Step where
  call : Call
  ok : Bool
  cls : ExcClass
  msg : String
  effect : Frame → Frame

/-- A checked library call as a step. -/
def libStep (env : Env) (c : Call) (cls : ExcClass) (msg : String) (effect : Frame → Frame) :
    Step :=
  { call := c, ok := env.xmlsec c, cls := cls, msg := msg, effect := effect }

/-- Whether a helper succeeded. -/
def helperOk {α : Type} : Except (ExcClass × String) α → Bool
  | .ok _ => true
  | .error _ => false

/-- The exception class a failed helper reports. -/
def helperClass {α : Type} : Except (ExcClass × String) α → ExcClass
  | .ok _ => .rb_eEncryptionError
  | .error e => e.1

/-- The message a failed helper reports. -/
def helperMessage {α : Type} : Except (ExcClass × String) α → String
  | .ok _ => ""
  | .error e => e.2

/-- A helper call as a step. -/
def helperStep (c : Call) (r : Except (ExcClass × String) Unit) (effect : Frame → Frame) : Step :=
  { call := c, ok := helperOk r, cls := helperClass r, msg := helperMessage r, effect := effect }

/-- Perform one step: on failure `goto done` with the class and message set. -/
def checked (env : Env) (s : Step) (f : Frame) : Except Frame Frame :=
  if s.ok = true then .ok (f.perform env s.call true)
  else .error ((f.perform env s.call false).fail s.cls s.msg)

/-- Run a list of steps in order, stopping at the first failure. -/
def runSteps (env : Env) : List Step → Frame → Except Frame Frame
  | [], f => .ok f
  | s :: rest, f => checked env s f >>= fun f => runSteps env rest (s.effect f)

/-- Lines 61-182 of `encrypt_with_key` as a list of steps; `body_eq_runSteps`
shows that running the list is the function `body`. -/
def program (env : Env) (self : Nat) (a : Locals) (options : XmlEncOptions) : List Step :=
  [ libStep env (.xmlSecTmplEncDataCreate options.block_encryption .xmlSecTypeEncElement)
      .rb_eEncryptionError "failed to create encryption template"
      (fun f => f.setEncDataNode (some .EncryptedData)),
    libStep env (.xmlSecTmplEncDataEnsureCipherValue .EncryptedData)
      .rb_eEncryptionError "failed to add CipherValue node" id,
    libStep env (.xmlSecTmplEncDataEnsureKeyInfo .EncryptedData)
      .rb_eEncryptionError "failed to add key info" (fun f => f.setKeyInfoNode (some .KeyInfo)) ]
  ++ (match a.certificate with
      | some _ => [libStep env (.xmlSecTmplKeyInfoAddX509Data .KeyInfo)
          .rb_eSigningError "failed to add X509Data node" id]
      | none => [])
  ++ (match a.keyName with
      | some _ => [libStep env (.xmlSecTmplKeyInfoAddKeyName .KeyInfo)
          .rb_eEncryptionError "failed to add key name" id]
      | none => [])
  ++ [ helperStep (.createKeyManagerWithSingleKey a.key a.keyLength a.keyName)
        (env.createKeyManagerWithSingleKey a.key a.keyLength a.keyName)
        (fun f => f.setKeyManager true),
       libStep env .xmlSecEncCtxCreate
        .rb_eEncryptionError "failed to create encryption context" (fun f => f.setEncCtx true),
       libStep env
        (.xmlSecKeyGenerateByName options.key_type options.key_bits .xmlSecKeyDataTypeSession)
        .rb_eDecryptionError "failed to generate session key" id ]
  ++ (match a.certificate with
      | some cert => [libStep env (.xmlSecCryptoAppKeyCertLoadMemory cert a.certificateLength)
          .rb_eSigningError "failed to load certificate" id]
      | none => [])
  ++ (match a.keyName with
      | some name => [libStep env (.xmlSecKeySetName name)
          .rb_eEncryptionError "failed to set key name" id]
      | none => [])
  ++ [ libStep env (.xmlSecTmplKeyInfoAddEncryptedKey .KeyInfo options.key_transport)
        .rb_eEncryptionError "failed to add encrypted key node"
        (fun f => f.setEncKeyNode (some .EncryptedKey)),
       libStep env (.xmlSecTmplEncDataEnsureCipherValue .EncryptedKey)
        .rb_eEncryptionError "failed to add encrypted cipher value" id,
       libStep env (.xmlSecEncCtxXmlEncrypt .EncryptedData self)
        .rb_eEncryptionError "encryption failed"
        (fun f => ((f.splice).setEncDataNode none).setEncKeyNode none) ]

/-- Locals at `done` when the steps before index `i` succeed and step `i`
fails (`i` past the end: no step fails). -/
def pathFrame (env : Env) : List Step → Nat → Frame → Frame
  | [], _, f => f
  | s :: _, 0, f => (f.perform env s.call false).fail s.cls s.msg
  | s :: rest, i + 1, f => pathFrame env rest i (s.effect (f.perform env s.call true))

/-! ## Observations on traces -/

/-- The calls of lines 31-48. -/
def Call.isCheck : Call → Bool
  | .resetXmlSecError => true
  | .Check_Type _ _ => true
  | .StringValueCStr _ => true
  | _ => false

/-- The calls of the cleanup section. -/
def Call.isCleanup : Call → Bool
  | .xmlSecEncCtxDestroy => true
  | .xmlFreeNode _ => true
  | .xmlSecKeysMngrDestroy => true
  | .xmlSecErrorsSetCallback _ => true
  | _ => false

/-- Creation of the encryption context. -/
def Call.isCtxCreate : Call → Bool
  | .xmlSecEncCtxCreate => true
  | _ => false

/-- Destruction of the encryption context. -/
def Call.isCtxDestroy : Call → Bool
  | .xmlSecEncCtxDestroy => true
  | _ => false

/-- Destruction of the key manager. -/
def Call.isMngrDestroy : Call → Bool
  | .xmlSecKeysMngrDestroy => true
  | _ => false

/-- The explicit release `xmlFreeNode(n)`. -/
def Call.isFree (n : TNode) : Call → Bool
  | .xmlFreeNode m => decide (m = n)
  | _ => false

/-- Restoring the default error callback. -/
def Call.isRestoreCallback : Call → Bool
  | .xmlSecErrorsSetCallback .xmlSecErrorsDefaultCallback => true
  | _ => false

/-- A number for each call site: two calls with different numbers are
different calls. -/
def Call.tag : Call → Nat
  | .resetXmlSecError => 0
  | .Check_Type a _ => 10 + a.toCtorIdx
  | .StringValueCStr a => 20 + a.toCtorIdx
  | .GetXmlEncOptions => 30
  | .xmlSecTmplEncDataCreate _ _ => 31
  | .xmlSecTmplEncDataEnsureCipherValue p => 40 + p.toCtorIdx
  | .xmlSecTmplEncDataEnsureKeyInfo p => 50 + p.toCtorIdx
  | .xmlSecTmplKeyInfoAddX509Data p => 60 + p.toCtorIdx
  | .xmlSecTmplKeyInfoAddKeyName p => 70 + p.toCtorIdx
  | .createKeyManagerWithSingleKey _ _ _ => 80
  | .xmlSecEncCtxCreate => 81
  | .xmlSecKeyGenerateByName _ _ _ => 82
  | .xmlSecCryptoAppKeyCertLoadMemory _ _ => 83
  | .xmlSecKeySetName _ => 84
  | .xmlSecTmplKeyInfoAddEncryptedKey p _ => 90 + p.toCtorIdx
  | .xmlSecEncCtxXmlEncrypt _ _ => 100
  | .xmlSecEncCtxDestroy => 101
  | .xmlFreeNode n => 110 + n.toCtorIdx
  | .xmlSecKeysMngrDestroy => 120
  | .xmlSecErrorsSetCallback cb => 121 + cb.toCtorIdx

/-- The ways lines 31-48 can raise: the checks passed so far and the check
that rejects its argument. -/
def rejections : List (List (Call × Bool) × Call) :=
  [ ([(.resetXmlSecError, true)], .Check_Type .rb_rsa_key .T_STRING),
    ([(.resetXmlSecError, true), (.Check_Type .rb_rsa_key .T_STRING, true)],
      .Check_Type .rb_opts .T_HASH),
    ([(.resetXmlSecError, true), (.Check_Type .rb_rsa_key .T_STRING, true),
      (.Check_Type .rb_opts .T_HASH, true)], .Check_Type .rb_rsa_key_name .T_STRING),
    ([(.resetXmlSecError, true), (.Check_Type .rb_rsa_key .T_STRING, true),
      (.Check_Type .rb_opts .T_HASH, true), (.Check_Type .rb_rsa_key_name .T_STRING, true)],
      .StringValueCStr .rb_rsa_key_name),
    ([(.resetXmlSecError, true), (.Check_Type .rb_rsa_key .T_STRING, true),
      (.Check_Type .rb_opts .T_HASH, true)], .Check_Type .rb_cert .T_STRING),
    ([(.resetXmlSecError, true), (.Check_Type .rb_rsa_key .T_STRING, true),
      (.Check_Type .rb_opts .T_HASH, true), (.Check_Type .rb_rsa_key_name .T_STRING, true),
      (.StringValueCStr .rb_rsa_key_name, true)], .Check_Type .rb_cert .T_STRING) ]

/-- The seven template-building steps are made with these library calls. -/
def Call.isTemplate : Call → Bool
  | .xmlSecTmplEncDataCreate _ _ => true
  | .xmlSecTmplEncDataEnsureCipherValue _ => true
  | .xmlSecTmplEncDataEnsureKeyInfo _ => true
  | .xmlSecTmplKeyInfoAddX509Data _ => true
  | .xmlSecTmplKeyInfoAddKeyName _ => true
  | .xmlSecTmplKeyInfoAddEncryptedKey _ _ => true
  | _ => false

/-- The hybrid-encryption primitive. -/
def Call.isEncrypt : Call → Bool
  | .xmlSecEncCtxXmlEncrypt _ _ => true
  | _ => false

/-- Key manager provisioning. -/
def Call.isProvision : Call → Bool
  | .createKeyManagerWithSingleKey _ _ _ => true
  | _ => false

/-- Creation of the template root. -/
def Call.isEncDataCreate : Call → Bool
  | .xmlSecTmplEncDataCreate _ _ => true
  | _ => false

/-- Session-key generation. -/
def Call.isKeyGenerate : Call → Bool
  | .xmlSecKeyGenerateByName _ _ _ => true
  | _ => false

/-- The steps claimed to raise in the encryption category: context creation,
key-name assignment, EncryptedKey wiring and the encryption primitive. -/
def Call.isEncryptionCategoryStep : Call → Bool
  | .xmlSecEncCtxCreate => true
  | .xmlSecKeySetName _ => true
  | .xmlSecTmplKeyInfoAddEncryptedKey _ _ => true
  | .xmlSecTmplEncDataEnsureCipherValue .EncryptedKey => true
  | .xmlSecEncCtxXmlEncrypt _ _ => true
  | _ => false

/-- The template-building calls of a trace, in order, with their status. -/
def templateOps (t : List (Call × Bool)) : List (Call × Bool) :=
  t.filter (fun e => e.1.isTemplate)

/-- The part of a trace before the first call satisfying `p`. -/
def before (p : Call → Bool) (t : List (Call × Bool)) : List (Call × Bool) :=
  t.takeWhile (fun e => !p e.1)

/-- Whether some call satisfying `p` returned success in the trace. -/
def succeeded (p : Call → Bool) (t : List (Call × Bool)) : Bool :=
  t.any (fun e => p e.1 && e.2)

/-- Whether a call satisfying `p` was made at all. -/
def invoked (p : Call → Bool) (t : List (Call × Bool)) : Bool :=
  t.any (fun e => p e.1)

/-- The first call of the trace that reported failure. -/
def failedCall (t : List (Call × Bool)) : Option Call :=
  (t.find? (fun e => !e.2)).map Prod.fst

/-- The value an argument name stands for in a call. -/
def argValue (rb_rsa_key_name rb_rsa_key rb_opts : VALUE) : Arg → VALUE
  | .rb_rsa_key => rb_rsa_key
  | .rb_opts => rb_opts
  | .rb_rsa_key_name => rb_rsa_key_name
  | .rb_cert => rb_hash_aref rb_opts "cert"

/-- The step-specific message of each fallible step: the literals of the
source for the library calls, the message reported by the helper for the two
helpers, the Ruby message for the argument checks.  Calls that cannot fail
have no message. -/
def stepMessage (env : Env) (rb_rsa_key_name rb_rsa_key rb_opts : VALUE) : Call → String
  | .Check_Type a t => typeErrorMessage (argValue rb_rsa_key_name rb_rsa_key rb_opts a) t
  | .StringValueCStr _ => nullByteMessage
  | .GetXmlEncOptions => helperMessage (env.GetXmlEncOptions rb_opts)
  | .xmlSecTmplEncDataCreate _ _ => "failed to create encryption template"
  | .xmlSecTmplEncDataEnsureCipherValue .EncryptedKey => "failed to add encrypted cipher value"
  | .xmlSecTmplEncDataEnsureCipherValue _ => "failed to add CipherValue node"
  | .xmlSecTmplEncDataEnsureKeyInfo _ => "failed to add key info"
  | .xmlSecTmplKeyInfoAddX509Data _ => "failed to add X509Data node"
  | .xmlSecTmplKeyInfoAddKeyName _ => "failed to add key name"
  | .createKeyManagerWithSingleKey k l n => helperMessage (env.createKeyManagerWithSingleKey k l n)
  | .xmlSecEncCtxCreate => "failed to create encryption context"
  | .xmlSecKeyGenerateByName _ _ _ => "failed to generate session key"
  | .xmlSecCryptoAppKeyCertLoadMemory _ _ => "failed to load certificate"
  | .xmlSecKeySetName _ => "failed to set key name"
  | .xmlSecTmplKeyInfoAddEncryptedKey _ _ => "failed to add encrypted key node"
  | .xmlSecEncCtxXmlEncrypt _ _ => "encryption failed"
  | _ => ""

/-- Parent and child linked by a successful template call. -/
def attachment : Call → Option (TNode × TNode)
  | .xmlSecTmplEncDataEnsureCipherValue .EncryptedKey => some (.EncryptedKey, .EncryptedKeyCipherValue)
  | .xmlSecTmplEncDataEnsureCipherValue p => some (p, .CipherValue)
  | .xmlSecTmplEncDataEnsureKeyInfo p => some (p, .KeyInfo)
  | .xmlSecTmplKeyInfoAddX509Data p => some (p, .X509Data)
  | .xmlSecTmplKeyInfoAddKeyName p => some (p, .KeyName)
  | .xmlSecTmplKeyInfoAddEncryptedKey p _ => some (p, .EncryptedKey)
  | _ => none

/-- The parent/child links of the template built by a trace. -/
def edges (t : List (Call × Bool)) : List (TNode × TNode) :=
  t.filterMap (fun e => if e.2 = true then attachment e.1 else none)

/-- The nodes released by `xmlFreeNode(n)`: libxml2 frees the node and,
recursively, every node attached below it; it does not unlink the node from
its parent. -/
def freedBy (es : List (TNode × TNode)) : Nat → TNode → List TNode
  | 0, n => [n]
  | fuel + 1, n => n :: (es.filter (fun e => e.1 = n)).flatMap (fun e => freedBy es fuel e.2)

/-- How many times the cleanup of a trace releases the node `x`, counting the
explicit `xmlFreeNode(x)` and every `xmlFreeNode` of a node above `x`. -/
def releaseCount (t : List (Call × Bool)) (x : TNode) : Nat :=
  (t.filter (fun e =>
    match e.1 with
    | .xmlFreeNode n => decide (x ∈ freedBy (edges t) (edges t).length n)
    | _ => false)).length

/-! ## Sample environments -/

/-- Sample option parser: reads the four required fields out of the hash and
rejects a hash that lacks one of them. -/
def sampleGetXmlEncOptions (rb_opts : VALUE) : Except (ExcClass × String) XmlEncOptions :=
  match rb_hash_aref rb_opts "block_encryption", rb_hash_aref rb_opts "key_transport",
        rb_hash_aref rb_opts "key_type", rb_hash_aref rb_opts "key_bits" with
  | .T_STRING be, .T_STRING kt, .T_STRING ty, .T_FIXNUM bits =>
    .ok { block_encryption := be, key_type := ty, key_bits := bits, key_transport := kt }
  | _, _, _, _ => .error (.rb_eArgError, "invalid encryption options")

/-- Sample key manager provisioner: rejects key bytes of length zero. -/
def sampleCreateKeyManager (_key : String) (keyLength : Nat) (_keyName : Option String) :
    Except (ExcClass × String) Unit :=
  if keyLength = 0 then .error (.rb_eDecryptionError, "failed to load rsa key") else .ok ()

/-- Environment in which every library call succeeds silently, except the
calls for which `fails` holds; those fail and report `"xmlsec failure"`. -/
def envFailing (fails : Call → Bool) : Env :=
  { xmlsec := fun c => !fails c
    diag := fun c => if fails c = true then some "xmlsec failure" else none
    GetXmlEncOptions := sampleGetXmlEncOptions
    createKeyManagerWithSingleKey := sampleCreateKeyManager }

/-- Environment in which every library call succeeds. -/
def envOk : Env := envFailing (fun _ => false)

/-- A clean process state. -/
def world0 : World := { lastError := none, callback := .xmlSecErrorsDefaultCallback }

/-- Options of scenario A of the specification. -/
def optsA : VALUE :=
  .T_HASH [("block_encryption", .T_STRING "aes256-cbc"), ("key_transport", .T_STRING "rsa-oaep-mgf1p"),
           ("key_type", .T_STRING "aes"), ("key_bits", .T_FIXNUM 256)]

/-- Options of scenario B: scenario A plus a certificate. -/
def optsB : VALUE :=
  .T_HASH [("block_encryption", .T_STRING "aes256-cbc"), ("key_transport", .T_STRING "rsa-oaep-mgf1p"),
           ("key_type", .T_STRING "aes"), ("key_bits", .T_FIXNUM 256),
           ("cert", .T_STRING "-----BEGIN CERTIFICATE-----")]

/-- Whether the numbers of a list are pairwise different. -/
def allDistinct : List Nat → Bool
  | [] => true
  | x :: xs => !xs.elem x && allDistinct xs

/-- A key name. -/
def nameK1 : VALUE := .T_STRING "k1"

/-- A non-empty key; the sample environments accept every non-empty key. -/
def keyPEM : VALUE := .T_STRING "PEM"

/-- The session-key generation call made with the options of scenario A. -/
def keyGenA : Call := .xmlSecKeyGenerateByName "aes" 256 .xmlSecKeyDataTypeSession

/-- Environment in which the key manager cannot be built, whatever the key;
every library call succeeds. -/
def envNoManager : Env :=
  { xmlsec := fun _ => true
    diag := fun _ => none
    GetXmlEncOptions := sampleGetXmlEncOptions
    createKeyManagerWithSingleKey := fun _ _ _ =>
      .error (.rb_eDecryptionError, "failed to create keys manager") }

/-- Environment in which only adding the X509Data node fails. -/
def envX509Fails : Env :=
  envFailing (fun c => c == .xmlSecTmplKeyInfoAddX509Data .KeyInfo)

/-- Environment in which only creating the template root fails. -/
def envTemplateFails : Env :=
  envFailing (fun c => c == .xmlSecTmplEncDataCreate "aes256-cbc" .xmlSecTypeEncElement)

/-- Environment in which only session-key generation fails. -/
def envKeyGenFails : Env := envFailing Call.isKeyGenerate

/-- Environment in which only the encryption primitive fails. -/
def envEncryptFails : Env := envFailing Call.isEncrypt

/-- Environment in which only adding the CipherValue under EncryptedKey fails. -/
def envKeyCipherValueFails : Env :=
  envFailing (fun c => c == .xmlSecTmplEncDataEnsureCipherValue .EncryptedKey)

/-! ## Lemmas on the control flow -/

theorem ok_bind {ε α β : Type} (x : α) (g : α → Except ε β) :
    (Except.ok x >>= g) = g x := rfl

theorem error_bind {ε α β : Type} (e : ε) (g : α → Except ε β) :
    ((Except.error e : Except ε α) >>= g) = Except.error e := rfl

theorem ite_bind {ε α β : Type} (c : Prop) [Decidable c] (x y : Except ε α)
    (g : α → Except ε β) :
    ((if c then x else y) >>= g) = if c then (x >>= g) else (y >>= g) := by
  split <;> rfl

theorem pure_eq_ok {ε α : Type} (x : α) : (pure x : Except ε α) = Except.ok x := rfl

theorem atDone_ok (f : Frame) : atDone (.ok f) = f := rfl

theorem atDone_error (f : Frame) : atDone (.error f) = f := rfl

/-- Lines 31-48 either pass, leaving the locals `checkedLocals` and the
trace `checkedTrace`, or raise inside one check `c` in one of the ways listed
in `rejections`: then the message is the message of that check and the error
slot is empty. -/
theorem argumentChecks_cases (env : Env) (w : World) (n k o : VALUE) :
    argumentChecks w n k o = .ok (checkedLocals n k o, Frame.checked (checkedTrace n o)) ∨
    ∃ c pre cls, argumentChecks w n k o =
        .error (cls, stepMessage env n k o c, Frame.checked (pre ++ [(c, false)])) ∧
      (pre, c) ∈ rejections := by
  cases k with
  | Qnil =>
    exact Or.inr ⟨.Check_Type .rb_rsa_key .T_STRING, [(.resetXmlSecError, true)], .rb_eTypeError,
      rfl, by decide⟩
  | T_FIXNUM i =>
    exact Or.inr ⟨.Check_Type .rb_rsa_key .T_STRING, [(.resetXmlSecError, true)], .rb_eTypeError,
      rfl, by decide⟩
  | T_HASH es =>
    exact Or.inr ⟨.Check_Type .rb_rsa_key .T_STRING, [(.resetXmlSecError, true)], .rb_eTypeError,
      rfl, by decide⟩
  | T_STRING ks =>
    cases o with
    | Qnil =>
      exact Or.inr ⟨.Check_Type .rb_opts .T_HASH,
        [(.resetXmlSecError, true), (.Check_Type .rb_rsa_key .T_STRING, true)], .rb_eTypeError,
        rfl, by decide⟩
    | T_FIXNUM i =>
      exact Or.inr ⟨.Check_Type .rb_opts .T_HASH,
        [(.resetXmlSecError, true), (.Check_Type .rb_rsa_key .T_STRING, true)], .rb_eTypeError,
        rfl, by decide⟩
    | T_STRING os =>
      exact Or.inr ⟨.Check_Type .rb_opts .T_HASH,
        [(.resetXmlSecError, true), (.Check_Type .rb_rsa_key .T_STRING, true)], .rb_eTypeError,
        rfl, by decide⟩
    | T_HASH es =>
      cases n with
      | Qnil =>
        cases hc : rb_hash_aref (.T_HASH es) "cert" with
        | Qnil => exact Or.inl (by simp only [argumentChecks, checkedLocals, checkedTrace, stepMessage, argValue, hc]; rfl)
        | T_STRING cs => exact Or.inl (by simp only [argumentChecks, checkedLocals, checkedTrace, stepMessage, argValue, hc]; rfl)
        | T_FIXNUM ci =>
          exact Or.inr ⟨.Check_Type .rb_cert .T_STRING, [(.resetXmlSecError, true), (.Check_Type .rb_rsa_key .T_STRING, true), (.Check_Type .rb_opts .T_HASH, true)], .rb_eTypeError,
            by simp only [argumentChecks, checkedLocals, checkedTrace, stepMessage, argValue, hc]; rfl, by decide⟩
        | T_HASH ces =>
          exact Or.inr ⟨.Check_Type .rb_cert .T_STRING, [(.resetXmlSecError, true), (.Check_Type .rb_rsa_key .T_STRING, true), (.Check_Type .rb_opts .T_HASH, true)], .rb_eTypeError,
            by simp only [argumentChecks, checkedLocals, checkedTrace, stepMessage, argValue, hc]; rfl, by decide⟩

      | T_FIXNUM ni =>
        exact Or.inr ⟨.Check_Type .rb_rsa_key_name .T_STRING, [(.resetXmlSecError, true), (.Check_Type .rb_rsa_key .T_STRING, true), (.Check_Type .rb_opts .T_HASH, true)], .rb_eTypeError,
          rfl, by decide⟩
      | T_HASH nes =>
        exact Or.inr ⟨.Check_Type .rb_rsa_key_name .T_STRING, [(.resetXmlSecError, true), (.Check_Type .rb_rsa_key .T_STRING, true), (.Check_Type .rb_opts .T_HASH, true)], .rb_eTypeError,
          rfl, by decide⟩
      | T_STRING ns =>
        by_cases hnb : hasNullByte ns = true
        · exact Or.inr ⟨.StringValueCStr .rb_rsa_key_name, [(.resetXmlSecError, true), (.Check_Type .rb_rsa_key .T_STRING, true), (.Check_Type .rb_opts .T_HASH, true), (.Check_Type .rb_rsa_key_name .T_STRING, true)], .rb_eArgError,
            by simp only [argumentChecks, stringValueCStr, RSTRING_PTR, hnb]; rfl,
            by decide⟩
        ·
          cases hc : rb_hash_aref (.T_HASH es) "cert" with
          | Qnil => exact Or.inl (by simp only [argumentChecks, checkedLocals, checkedTrace, stepMessage, argValue, hc, stringValueCStr, RSTRING_PTR, hnb]; rfl)
          | T_STRING cs => exact Or.inl (by simp only [argumentChecks, checkedLocals, checkedTrace, stepMessage, argValue, hc, stringValueCStr, RSTRING_PTR, hnb]; rfl)
          | T_FIXNUM ci =>
            exact Or.inr ⟨.Check_Type .rb_cert .T_STRING, [(.resetXmlSecError, true), (.Check_Type .rb_rsa_key .T_STRING, true), (.Check_Type .rb_opts .T_HASH, true), (.Check_Type .rb_rsa_key_name .T_STRING, true), (.StringValueCStr .rb_rsa_key_name, true)], .rb_eTypeError,
              by simp only [argumentChecks, checkedLocals, checkedTrace, stepMessage, argValue, hc, stringValueCStr, RSTRING_PTR, hnb]; rfl, by decide⟩
          | T_HASH ces =>
            exact Or.inr ⟨.Check_Type .rb_cert .T_STRING, [(.resetXmlSecError, true), (.Check_Type .rb_rsa_key .T_STRING, true), (.Check_Type .rb_opts .T_HASH, true), (.Check_Type .rb_rsa_key_name .T_STRING, true), (.StringValueCStr .rb_rsa_key_name, true)], .rb_eTypeError,
              by simp only [argumentChecks, checkedLocals, checkedTrace, stepMessage, argValue, hc, stringValueCStr, RSTRING_PTR, hnb]; rfl, by decide⟩

/-- Every run of a list of steps follows one of its paths: the steps before
some index succeed and the step at that index, if any, fails. -/
theorem runSteps_path (env : Env) (steps : List Step) :
    ∀ f : Frame, ∃ i, i ≤ steps.length ∧
      atDone (runSteps env steps f) = pathFrame env steps i f := by
  induction steps with
  | nil => intro f; exact ⟨0, le_refl _, rfl⟩
  | cons s rest ih =>
    intro f
    cases hs : s.ok with
    | false =>
      exact ⟨0, Nat.zero_le _, by simp [runSteps, checked, hs, pathFrame, atDone, error_bind]⟩
    | true =>
      obtain ⟨i, hi, h⟩ := ih (s.effect (f.perform env s.call true))
      exact ⟨i + 1, Nat.succ_le_succ hi, by simp [runSteps, checked, hs, pathFrame, h, ok_bind]⟩

/-- The function `body` runs the step list `program` after option parsing. -/
theorem body_eq_runSteps (env : Env) (self : Nat) (a : Locals) (o : VALUE) (f : Frame) :
    body env self a o f =
      match env.GetXmlEncOptions o with
      | .error e => .error ((f.perform env .GetXmlEncOptions false).fail e.1 e.2)
      | .ok options =>
        runSteps env (program env self a options) (f.perform env .GetXmlEncOptions true) := by
  obtain ⟨key, keyLength, keyName, certificate, certificateLength⟩ := a
  unfold body
  cases ho : env.GetXmlEncOptions o with
  | error e => rfl
  | ok options =>
    cases certificate <;> cases keyName <;>
      cases hm : env.createKeyManagerWithSingleKey key keyLength _ <;>
      simp only [program, hm] <;> rfl

/-- A call that passes the checks of lines 31-48 runs body, cleanup and exit. -/
theorem encrypt_of_checked (env : Env) (w : World) (self : Nat) (n k o : VALUE)
    (hp : argumentChecks w n k o = .ok (checkedLocals n k o, Frame.checked (checkedTrace n o))) :
    encrypt_with_key env w self n k o =
      Result.atExit (cleanup env (atDone (body env self (checkedLocals n k o) o
        (Frame.checked (checkedTrace n o))))) := by
  simp only [encrypt_with_key, hp]

/-- A call rejected by a check of lines 31-48 raises at once. -/
theorem encrypt_of_rejected (env : Env) (w : World) (self : Nat) (n k o : VALUE)
    (cls : ExcClass) (msg : String) (f : Frame)
    (hp : argumentChecks w n k o = .error (cls, msg, f)) :
    encrypt_with_key env w self n k o = { outcome := .raised cls msg, frame := f } := by
  simp only [encrypt_with_key, hp]

/-! ## Path analysis -/

/-- A list of numbers that passes `allDistinct` has no duplicates. -/
theorem nodup_of_allDistinct : ∀ l : List Nat, allDistinct l = true → l.Nodup
  | [], _ => List.nodup_nil
  | x :: xs, h => by
    simp only [allDistinct, Bool.and_eq_true, Bool.not_eq_true', List.elem_eq_mem,
      decide_eq_false_iff_not] at h
    exact List.nodup_cons.mpr ⟨h.1, nodup_of_allDistinct xs h.2⟩

/-- Calls with pairwise different call-site numbers are pairwise different. -/
theorem nodup_of_tags (l : List Call) (h : allDistinct (l.map Call.tag) = true) : l.Nodup :=
  List.Nodup.of_map Call.tag (nodup_of_allDistinct _ h)

/-- The raised text starts with the step message. -/
theorem raisedMessage_startsWith (msg : String) (lastError : Option String) :
    ∃ suffix, raisedMessage msg lastError = msg ++ suffix := by
  cases lastError with
  | none => exact ⟨"", by simp [raisedMessage]⟩
  | some d => exact ⟨", XmlSec error: " ++ d, by simp [raisedMessage, String.append_assoc]⟩

set_option maxHeartbeats 4000000 in
/-- Path analysis of `encrypt_with_key`: the call either is rejected by a check
of lines 31-48, or option parsing fails, or the steps of `program` run up to
the first failure; on each of these paths the trace, the outcome and the final
error state are evaluated.  The conjuncts are the properties used below. -/
theorem encrypt_paths (env : Env) (w : World) (self : Nat) (n k o : VALUE) (r : Result)
    (hr : r = encrypt_with_key env w self n k o) :
    (r.outcome = .returned →
      ∃ options, env.GetXmlEncOptions o = .ok options ∧
        templateOps r.frame.trace =
        [(.xmlSecTmplEncDataCreate options.block_encryption .xmlSecTypeEncElement, true),
         (.xmlSecTmplEncDataEnsureCipherValue .EncryptedData, true),
         (.xmlSecTmplEncDataEnsureKeyInfo .EncryptedData, true)]
        ++ (if NIL_P (rb_hash_aref o "cert") = true then []
            else [(.xmlSecTmplKeyInfoAddX509Data .KeyInfo, true)])
        ++ (if NIL_P n = true then [] else [(.xmlSecTmplKeyInfoAddKeyName .KeyInfo, true)])
        ++ [(.xmlSecTmplKeyInfoAddEncryptedKey .KeyInfo options.key_transport, true),
            (.xmlSecTmplEncDataEnsureCipherValue .EncryptedKey, true)]) ∧
    (List.countP (fun e => e.1.isEncrypt) r.frame.trace ≤ 1 ∧
    (invoked Call.isEncrypt r.frame.trace = true →
      (before Call.isEncrypt r.frame.trace).all (fun e => e.2) = true) ∧
    (r.frame.trace.any (fun e => !e.1.isEncrypt && !e.2) = true →
      invoked Call.isEncrypt r.frame.trace = false ∧ r.frame.spliced = false) ∧
    r.frame.spliced = succeeded Call.isEncrypt r.frame.trace ∧
    (r.frame.trace.map Prod.fst).Nodup) ∧
    (invoked Call.isCtxDestroy r.frame.trace = succeeded Call.isCtxCreate r.frame.trace ∧
    invoked Call.isMngrDestroy r.frame.trace = succeeded Call.isProvision r.frame.trace ∧
    invoked (Call.isFree .EncryptedData) r.frame.trace =
      (succeeded Call.isEncDataCreate r.frame.trace && !succeeded Call.isEncrypt r.frame.trace) ∧
    (r.outcome = .returned →
      invoked (Call.isFree .EncryptedData) r.frame.trace = false ∧
      invoked (Call.isFree .EncryptedKey) r.frame.trace = false)) ∧
    (∀ c, failedCall r.frame.trace = some c →
      (c.isKeyGenerate = true →
        r.outcome = .raised .rb_eDecryptionError
          (raisedMessage "failed to generate session key" r.frame.lastError)) ∧
      (c.isEncryptionCategoryStep = true →
        r.outcome = .raised .rb_eEncryptionError
          (raisedMessage (stepMessage env n k o c) r.frame.lastError))) ∧
    ((r.outcome = .returned ↔ failedCall r.frame.trace = none) ∧
    (∀ cls msg, r.outcome = .raised cls msg →
      ∃ c, failedCall r.frame.trace = some c ∧
        msg = raisedMessage (stepMessage env n k o c) r.frame.lastError ∧
        ∃ suffix, msg = stepMessage env n k o c ++ suffix)) ∧
    (∀ key len name,
      failedCall r.frame.trace = some (.createKeyManagerWithSingleKey key len name) →
      key = RSTRING_PTR k ∧ len = RSTRING_LEN k ∧
      (∃ options, env.GetXmlEncOptions o = .ok options ∧
        templateOps (before Call.isProvision r.frame.trace) =
        [(.xmlSecTmplEncDataCreate options.block_encryption .xmlSecTypeEncElement, true),
         (.xmlSecTmplEncDataEnsureCipherValue .EncryptedData, true),
         (.xmlSecTmplEncDataEnsureKeyInfo .EncryptedData, true)]
        ++ (if NIL_P (rb_hash_aref o "cert") = true then []
            else [(.xmlSecTmplKeyInfoAddX509Data .KeyInfo, true)])
        ++ (if NIL_P n = true then [] else [(.xmlSecTmplKeyInfoAddKeyName .KeyInfo, true)])) ∧
      succeeded Call.isProvision r.frame.trace = false ∧
      invoked Call.isCtxCreate r.frame.trace = false ∧
      invoked (Call.isFree .EncryptedData) r.frame.trace = true ∧
      r.outcome = .raised (helperClass (env.createKeyManagerWithSingleKey key len name))
        (raisedMessage (helperMessage (env.createKeyManagerWithSingleKey key len name))
          r.frame.lastError)) ∧
    (invoked Call.isProvision r.frame.trace = true →
      (∃ options, env.GetXmlEncOptions o = .ok options ∧
        templateOps (before Call.isProvision r.frame.trace) =
        [(.xmlSecTmplEncDataCreate options.block_encryption .xmlSecTypeEncElement, true),
         (.xmlSecTmplEncDataEnsureCipherValue .EncryptedData, true),
         (.xmlSecTmplEncDataEnsureKeyInfo .EncryptedData, true)]
        ++ (if NIL_P (rb_hash_aref o "cert") = true then []
            else [(.xmlSecTmplKeyInfoAddX509Data .KeyInfo, true)])
        ++ (if NIL_P n = true then [] else [(.xmlSecTmplKeyInfoAddKeyName .KeyInfo, true)])) ∧
      (succeeded Call.isProvision r.frame.trace = false →
        invoked (Call.isFree .EncryptedData) r.frame.trace = true ∧
        invoked Call.isCtxCreate r.frame.trace = false)) ∧
    (r.frame.trace.head? = some (.resetXmlSecError, true) ∧
    (reachesCleanup w n k o = true →
      r.frame.callback = .xmlSecErrorsDefaultCallback ∧
      r.frame.trace.getLast? = some (.xmlSecErrorsSetCallback .xmlSecErrorsDefaultCallback, true))) := by
  subst hr
  generalize ht : (encrypt_with_key env w self n k o).frame.trace = t
  generalize hout : (encrypt_with_key env w self n k o).outcome = out
  generalize hle : (encrypt_with_key env w self n k o).frame.lastError = le
  generalize hsp : (encrypt_with_key env w self n k o).frame.spliced = sp
  generalize hcb : (encrypt_with_key env w self n k o).frame.callback = cb
  rcases argumentChecks_cases env w n k o with hp | ⟨c, pre, cls, hp, hmem⟩
  · rw [encrypt_of_checked env w self n k o hp, body_eq_runSteps] at ht hout hle hsp hcb
    cases ho : env.GetXmlEncOptions o with
    | error e =>
      simp only [ho] at ht hout hle hsp hcb
      cases hn : NIL_P n <;> cases hc : NIL_P (rb_hash_aref o "cert") <;>
        simp only [checkedTrace, hn, hc, atDone_error,
          cleanup, Result.atExit, finish, id, Frame.checked_trace, Frame.checked_lastError,
          Frame.checked_callback, Frame.checked_spliced, Frame.checked_encDataNode,
          Frame.checked_encKeyNode, Frame.checked_encCtx, Frame.checked_keyManager,
          Frame.checked_rb_exception_result, Frame.checked_exception_message,
          Frame.perform_trace, Frame.perform_lastError, Frame.perform_callback,
          Frame.perform_spliced, Frame.perform_encDataNode, Frame.perform_encKeyNode,
          Frame.perform_encCtx, Frame.perform_keyManager, Frame.perform_rb_exception_result,
          Frame.perform_exception_message, Frame.fail_trace, Frame.fail_lastError,
          Frame.fail_callback, Frame.fail_spliced, Frame.fail_encDataNode,
          Frame.fail_encKeyNode, Frame.fail_encCtx, Frame.fail_keyManager,
          Frame.fail_rb_exception_result, Frame.fail_exception_message,
          Frame.setEncDataNode_trace, Frame.setEncDataNode_lastError,
          Frame.setEncDataNode_callback, Frame.setEncDataNode_spliced,
          Frame.setEncDataNode_encDataNode, Frame.setEncDataNode_encKeyNode,
          Frame.setEncDataNode_encCtx, Frame.setEncDataNode_keyManager,
          Frame.setEncDataNode_rb_exception_result, Frame.setEncDataNode_exception_message,
          Frame.setEncKeyNode_trace, Frame.setEncKeyNode_lastError,
          Frame.setEncKeyNode_callback, Frame.setEncKeyNode_spliced,
          Frame.setEncKeyNode_encDataNode, Frame.setEncKeyNode_encKeyNode,
          Frame.setEncKeyNode_encCtx, Frame.setEncKeyNode_keyManager,
          Frame.setEncKeyNode_rb_exception_result, Frame.setEncKeyNode_exception_message,
          Frame.setKeyInfoNode_trace, Frame.setKeyInfoNode_lastError,
          Frame.setKeyInfoNode_callback, Frame.setKeyInfoNode_spliced,
          Frame.setKeyInfoNode_encDataNode, Frame.setKeyInfoNode_encKeyNode,
          Frame.setKeyInfoNode_encCtx, Frame.setKeyInfoNode_keyManager,
          Frame.setKeyInfoNode_rb_exception_result, Frame.setKeyInfoNode_exception_message,
          Frame.setKeyManager_trace, Frame.setKeyManager_lastError,
          Frame.setKeyManager_callback, Frame.setKeyManager_spliced,
          Frame.setKeyManager_encDataNode, Frame.setKeyManager_encKeyNode,
          Frame.setKeyManager_encCtx, Frame.setKeyManager_keyManager,
          Frame.setKeyManager_rb_exception_result, Frame.setKeyManager_exception_message,
          Frame.setEncCtx_trace, Frame.setEncCtx_lastError, Frame.setEncCtx_callback,
          Frame.setEncCtx_spliced, Frame.setEncCtx_encDataNode, Frame.setEncCtx_encKeyNode,
          Frame.setEncCtx_encCtx, Frame.setEncCtx_keyManager,
          Frame.setEncCtx_rb_exception_result, Frame.setEncCtx_exception_message,
          Frame.splice_trace, Frame.splice_lastError, Frame.splice_callback,
          Frame.splice_spliced, Frame.splice_encDataNode, Frame.splice_encKeyNode,
          Frame.splice_encCtx, Frame.splice_keyManager, Frame.splice_rb_exception_result,
          Frame.splice_exception_message, Frame.restoreCallback_trace,
          Frame.restoreCallback_lastError, Frame.restoreCallback_callback,
          Frame.restoreCallback_spliced, Frame.restoreCallback_encDataNode,
          Frame.restoreCallback_encKeyNode, Frame.restoreCallback_encCtx,
          Frame.restoreCallback_keyManager, Frame.restoreCallback_rb_exception_result,
          Frame.restoreCallback_exception_message, List.append_assoc, List.cons_append,
          List.nil_append, Bool.false_eq_true, if_false, if_true, Option.getD_some] at ht hout hle hsp hcb <;>
        subst ht hout hle hsp hcb <;>
        (refine ⟨?_, ?_, ?_, ?_, ?_, ?_, ?_, ?_⟩
         · intro h
           cases h
         · exact ⟨Nat.le_of_ble_eq_true rfl, fun hh => Bool.noConfusion (hh : false = true),
             fun _ => ⟨rfl, rfl⟩, rfl, nodup_of_tags _ rfl⟩
         · exact ⟨rfl, rfl, rfl, fun hh => (by cases hh)⟩
         · intro c h
           cases (h : some _ = some c)
           exact ⟨fun hh => Bool.noConfusion (hh : false = true),
             fun hh => Bool.noConfusion (hh : false = true)⟩
         · exact ⟨⟨fun hh => (by cases hh), fun hh => (by cases (hh : some _ = none))⟩,
             fun _ _ hh => by
               cases hh
               refine ⟨.GetXmlEncOptions, rfl, ?_, ?_⟩ <;>
                 simp only [stepMessage, ho, helperMessage]
               exact raisedMessage_startsWith _ _⟩
         · intro key len name h
           cases (h : some _ = some _)
         · intro h
           exact Bool.noConfusion (h : false = true)
         · exact ⟨rfl, fun _ => ⟨rfl, rfl⟩⟩)
    | ok options =>
      obtain ⟨i, hi, hpath⟩ := runSteps_path env (program env self (checkedLocals n k o) options)
        ((Frame.checked (checkedTrace n o)).perform env .GetXmlEncOptions true)
      simp only [ho, hpath] at ht hout hle hsp hcb
      cases hn : NIL_P n <;> cases hc : NIL_P (rb_hash_aref o "cert") <;>
        simp only [checkedLocals, checkedTrace, hn, hc, Bool.false_eq_true, if_false,
          if_true] at ht hout hle hsp hcb <;>
        simp [checkedLocals, program, hn, hc] at hi <;>
        interval_cases i <;>
        simp only [program, pathFrame, libStep, helperStep, List.cons_append,
          List.nil_append] at ht hout hle hsp hcb <;>
        simp only [cleanup, Result.atExit, finish, id, Frame.checked_trace, Frame.checked_lastError,
          Frame.checked_callback, Frame.checked_spliced, Frame.checked_encDataNode,
          Frame.checked_encKeyNode, Frame.checked_encCtx, Frame.checked_keyManager,
          Frame.checked_rb_exception_result, Frame.checked_exception_message,
          Frame.perform_trace, Frame.perform_lastError, Frame.perform_callback,
          Frame.perform_spliced, Frame.perform_encDataNode, Frame.perform_encKeyNode,
          Frame.perform_encCtx, Frame.perform_keyManager, Frame.perform_rb_exception_result,
          Frame.perform_exception_message, Frame.fail_trace, Frame.fail_lastError,
          Frame.fail_callback, Frame.fail_spliced, Frame.fail_encDataNode,
          Frame.fail_encKeyNode, Frame.fail_encCtx, Frame.fail_keyManager,
          Frame.fail_rb_exception_result, Frame.fail_exception_message,
          Frame.setEncDataNode_trace, Frame.setEncDataNode_lastError,
          Frame.setEncDataNode_callback, Frame.setEncDataNode_spliced,
          Frame.setEncDataNode_encDataNode, Frame.setEncDataNode_encKeyNode,
          Frame.setEncDataNode_encCtx, Frame.setEncDataNode_keyManager,
          Frame.setEncDataNode_rb_exception_result, Frame.setEncDataNode_exception_message,
          Frame.setEncKeyNode_trace, Frame.setEncKeyNode_lastError,
          Frame.setEncKeyNode_callback, Frame.setEncKeyNode_spliced,
          Frame.setEncKeyNode_encDataNode, Frame.setEncKeyNode_encKeyNode,
          Frame.setEncKeyNode_encCtx, Frame.setEncKeyNode_keyManager,
          Frame.setEncKeyNode_rb_exception_result, Frame.setEncKeyNode_exception_message,
          Frame.setKeyInfoNode_trace, Frame.setKeyInfoNode_lastError,
          Frame.setKeyInfoNode_callback, Frame.setKeyInfoNode_spliced,
          Frame.setKeyInfoNode_encDataNode, Frame.setKeyInfoNode_encKeyNode,
          Frame.setKeyInfoNode_encCtx, Frame.setKeyInfoNode_keyManager,
          Frame.setKeyInfoNode_rb_exception_result, Frame.setKeyInfoNode_exception_message,
          Frame.setKeyManager_trace, Frame.setKeyManager_lastError,
          Frame.setKeyManager_callback, Frame.setKeyManager_spliced,
          Frame.setKeyManager_encDataNode, Frame.setKeyManager_encKeyNode,
          Frame.setKeyManager_encCtx, Frame.setKeyManager_keyManager,
          Frame.setKeyManager_rb_exception_result, Frame.setKeyManager_exception_message,
          Frame.setEncCtx_trace, Frame.setEncCtx_lastError, Frame.setEncCtx_callback,
          Frame.setEncCtx_spliced, Frame.setEncCtx_encDataNode, Frame.setEncCtx_encKeyNode,
          Frame.setEncCtx_encCtx, Frame.setEncCtx_keyManager,
          Frame.setEncCtx_rb_exception_result, Frame.setEncCtx_exception_message,
          Frame.splice_trace, Frame.splice_lastError, Frame.splice_callback,
          Frame.splice_spliced, Frame.splice_encDataNode, Frame.splice_encKeyNode,
          Frame.splice_encCtx, Frame.splice_keyManager, Frame.splice_rb_exception_result,
          Frame.splice_exception_message, Frame.restoreCallback_trace,
          Frame.restoreCallback_lastError, Frame.restoreCallback_callback,
          Frame.restoreCallback_spliced, Frame.restoreCallback_encDataNode,
          Frame.restoreCallback_encKeyNode, Frame.restoreCallback_encCtx,
          Frame.restoreCallback_keyManager, Frame.restoreCallback_rb_exception_result,
          Frame.restoreCallback_exception_message, List.append_assoc, List.cons_append,
          List.nil_append, Bool.false_eq_true, if_false, if_true, Option.getD_some] at ht hout hle hsp hcb <;>
        subst ht hout hle hsp hcb <;>
        (refine ⟨?_, ?_, ?_, ?_, ?_, ?_, ?_, ?_⟩
         · intro h
           first
             | (cases h; done)
             | exact ⟨options, rfl, rfl⟩
         · refine ⟨Nat.le_of_ble_eq_true rfl, ?_, ?_, rfl, nodup_of_tags _ rfl⟩
           · first
               | exact fun hh => Bool.noConfusion (hh : false = true)
               | exact fun _ => rfl
           · first
               | exact fun hh => Bool.noConfusion (hh : false = true)
               | exact fun _ => ⟨rfl, rfl⟩
         · refine ⟨rfl, rfl, rfl, ?_⟩
           intro hh
           first
             | (cases hh; done)
             | exact ⟨rfl, rfl⟩
         · intro c h
           first
             | cases (h : none = some c)
             | (cases (h : some _ = some c)
                first
                  | exact ⟨fun hh => Bool.noConfusion (hh : false = true),
                      fun hh => Bool.noConfusion (hh : false = true)⟩
                  | exact ⟨fun hh => Bool.noConfusion (hh : false = true), fun _ => rfl⟩
                  | exact ⟨fun _ => rfl, fun hh => Bool.noConfusion (hh : false = true)⟩)
         · first
             | exact ⟨⟨fun _ => rfl, fun _ => rfl⟩, fun _ _ hh => (by cases hh)⟩
             | exact ⟨⟨fun hh => (by cases hh), fun hh => (by cases (hh : some _ = none))⟩,
                 fun _ _ hh => by cases hh; exact ⟨_, rfl, rfl, raisedMessage_startsWith _ _⟩⟩
         · intro key len name h
           first
             | cases (h : none = some _)
             | (cases (h : some _ = some _); done)
             | (cases (h : some _ = some _)
                exact ⟨rfl, rfl, ⟨options, rfl, rfl⟩, rfl, rfl, rfl, rfl⟩)
         · intro h
           first
             | exact Bool.noConfusion (h : false = true)
             | exact ⟨⟨options, rfl, rfl⟩, fun hh => Bool.noConfusion (hh : true = false)⟩
             | exact ⟨⟨options, rfl, rfl⟩, fun _ => ⟨rfl, rfl⟩⟩
         · exact ⟨rfl, fun _ => ⟨rfl, rfl⟩⟩)
  · rw [encrypt_of_rejected env w self n k o _ _ _ hp] at ht hout hle hsp hcb
    simp only [rejections, List.mem_cons, List.mem_singleton, Prod.mk.injEq, List.not_mem_nil,
      or_false] at hmem
    rcases hmem with ⟨rfl, rfl⟩ | ⟨rfl, rfl⟩ | ⟨rfl, rfl⟩ | ⟨rfl, rfl⟩ | ⟨rfl, rfl⟩ | ⟨rfl, rfl⟩ <;>
      simp only [Frame.checked_trace, Frame.checked_lastError, Frame.checked_spliced,
        Frame.checked_callback, List.cons_append, List.nil_append] at ht hout hle hsp hcb <;>
      subst ht hout hle hsp hcb <;>
      (refine ⟨?_, ?_, ?_, ?_, ?_, ?_, ?_, ?_⟩
       · intro h
         cases h
       · exact ⟨Nat.le_of_ble_eq_true rfl, fun hh => Bool.noConfusion (hh : false = true),
           fun _ => ⟨rfl, rfl⟩, rfl, nodup_of_tags _ rfl⟩
       · exact ⟨rfl, rfl, rfl, fun hh => (by cases hh)⟩
       · intro c h
         cases (h : some _ = some c)
         exact ⟨fun hh => Bool.noConfusion (hh : false = true),
           fun hh => Bool.noConfusion (hh : false = true)⟩
       · exact ⟨⟨fun hh => (by cases hh), fun hh => (by cases (hh : some _ = none))⟩,
           fun _ _ hh => by cases hh; exact ⟨_, rfl, rfl, "", (String.append_empty _).symm⟩⟩
       · intro key len name h
         cases (h : some _ = some _)
       · intro h
         exact Bool.noConfusion (h : false = true)
       · exact ⟨rfl, fun hrc => absurd hrc (by simp [reachesCleanup, hp])⟩)

/-- The length of the empty key. -/
theorem RSTRING_LEN_empty : RSTRING_LEN (.T_STRING "") = 0 := by decide

/-- On every call that reaches the `done:` label the default error callback is
restored by the last call made, and on every call the first call made is the
reset of the error slot. -/
theorem callback_restored_when_cleanup_reached (env : Env) (w : World) (self : Nat)
    (n k o : VALUE) :
    let r := encrypt_with_key env w self n k o
    r.frame.trace.head? = some (.resetXmlSecError, true) ∧
    (reachesCleanup w n k o = true →
      r.frame.callback = .xmlSecErrorsDefaultCallback ∧
      r.frame.trace.getLast? = some (.xmlSecErrorsSetCallback .xmlSecErrorsDefaultCallback, true)) :=
  (encrypt_paths env w self n k o _ rfl).2.2.2.2.2.2.2

/-! ## The claims -/

/-- C1: on every successful call the template-building calls are, in order,
EncryptedData (element type, algorithm `block_encryption`), CipherValue under
EncryptedData, KeyInfo under EncryptedData, X509Data under KeyInfo exactly
when `opts[:cert]` is not nil, KeyName under KeyInfo exactly when the key name
is not nil, EncryptedKey under KeyInfo (algorithm `key_transport`), CipherValue
under EncryptedKey; each of them succeeded. -/
theorem template_sequence_on_success (env : Env) (w : World) (self : Nat) (n k o : VALUE)
    (h : (encrypt_with_key env w self n k o).outcome = .returned) :
    let r := encrypt_with_key env w self n k o
    ∃ options, env.GetXmlEncOptions o = .ok options ∧
        templateOps r.frame.trace =
        [(.xmlSecTmplEncDataCreate options.block_encryption .xmlSecTypeEncElement, true),
         (.xmlSecTmplEncDataEnsureCipherValue .EncryptedData, true),
         (.xmlSecTmplEncDataEnsureKeyInfo .EncryptedData, true)]
        ++ (if NIL_P (rb_hash_aref o "cert") = true then []
            else [(.xmlSecTmplKeyInfoAddX509Data .KeyInfo, true)])
        ++ (if NIL_P n = true then [] else [(.xmlSecTmplKeyInfoAddKeyName .KeyInfo, true)])
        ++ [(.xmlSecTmplKeyInfoAddEncryptedKey .KeyInfo options.key_transport, true),
            (.xmlSecTmplEncDataEnsureCipherValue .EncryptedKey, true)] :=
  (encrypt_paths env w self n k o _ rfl).1 h

/-- C1, witness: scenario B of the specification
(key name and certificate supplied, every step succeeds). -/
theorem template_sequence_on_success_witness :
    (encrypt_with_key envOk world0 7 nameK1 keyPEM optsB).outcome = .returned ∧
    ∃ options, envOk.GetXmlEncOptions optsB = .ok options ∧
      templateOps (encrypt_with_key envOk world0 7 nameK1 keyPEM optsB).frame.trace =
        [(.xmlSecTmplEncDataCreate options.block_encryption .xmlSecTypeEncElement, true),
         (.xmlSecTmplEncDataEnsureCipherValue .EncryptedData, true),
         (.xmlSecTmplEncDataEnsureKeyInfo .EncryptedData, true),
         (.xmlSecTmplKeyInfoAddX509Data .KeyInfo, true),
         (.xmlSecTmplKeyInfoAddKeyName .KeyInfo, true),
         (.xmlSecTmplKeyInfoAddEncryptedKey .KeyInfo options.key_transport, true),
         (.xmlSecTmplEncDataEnsureCipherValue .EncryptedKey, true)] :=
  ⟨by decide, template_sequence_on_success envOk world0 7 nameK1 keyPEM optsB (by decide)⟩

/-- C2: the encryption primitive is invoked at most once; when it is invoked,
every call made before it has succeeded; when any other call fails, the
primitive is not invoked and the document stays unspliced; the document is
spliced exactly when the primitive succeeds; no call is made twice (no step is
retried). -/
theorem encrypt_only_after_all_steps (env : Env) (w : World) (self : Nat) (n k o : VALUE) :
    let r := encrypt_with_key env w self n k o
    List.countP (fun e => e.1.isEncrypt) r.frame.trace ≤ 1 ∧
    (invoked Call.isEncrypt r.frame.trace = true →
      (before Call.isEncrypt r.frame.trace).all (fun e => e.2) = true) ∧
    (r.frame.trace.any (fun e => !e.1.isEncrypt && !e.2) = true →
      invoked Call.isEncrypt r.frame.trace = false ∧ r.frame.spliced = false) ∧
    r.frame.spliced = succeeded Call.isEncrypt r.frame.trace ∧
    (r.frame.trace.map Prod.fst).Nodup :=
  (encrypt_paths env w self n k o _ rfl).2.1

/-- C3: the cleanup destroys the encryption context exactly when it was
created, destroys the key manager exactly when it was created, and releases
the template root exactly when the root was created and the encryption
primitive did not succeed; on success it releases neither the template root
nor the EncryptedKey node.  (A call rejected by an argument check creates and
releases nothing, so the statement needs no hypothesis.) -/
theorem cleanup_releases_what_was_created (env : Env) (w : World) (self : Nat)
    (n k o : VALUE) :
    let r := encrypt_with_key env w self n k o
    invoked Call.isCtxDestroy r.frame.trace = succeeded Call.isCtxCreate r.frame.trace ∧
    invoked Call.isMngrDestroy r.frame.trace = succeeded Call.isProvision r.frame.trace ∧
    invoked (Call.isFree .EncryptedData) r.frame.trace =
      (succeeded Call.isEncDataCreate r.frame.trace && !succeeded Call.isEncrypt r.frame.trace) ∧
    (r.outcome = .returned →
      invoked (Call.isFree .EncryptedData) r.frame.trace = false ∧
      invoked (Call.isFree .EncryptedKey) r.frame.trace = false) :=
  (encrypt_paths env w self n k o _ rfl).2.2.1

/-- C5: when the first failing step is session-key generation, the call raises
the decryption error class with the step message
"failed to generate session key"; when it is context creation, key-name
assignment, EncryptedKey wiring or the encryption primitive, the call raises
the encryption error class. -/
theorem session_key_failure_category (env : Env) (w : World) (self : Nat) (n k o : VALUE)
    (c : Call) (h : failedCall (encrypt_with_key env w self n k o).frame.trace = some c) :
    let r := encrypt_with_key env w self n k o
    (c.isKeyGenerate = true →
        r.outcome = .raised .rb_eDecryptionError
          (raisedMessage "failed to generate session key" r.frame.lastError)) ∧
      (c.isEncryptionCategoryStep = true →
        r.outcome = .raised .rb_eEncryptionError
          (raisedMessage (stepMessage env n k o c) r.frame.lastError)) :=
  (encrypt_paths env w self n k o _ rfl).2.2.2.1 c h

/-- C5, witness: scenario A of the specification
with a failing session-key generation. -/
theorem session_key_failure_category_witness :
    failedCall (encrypt_with_key envKeyGenFails world0 7 nameK1 keyPEM optsA).frame.trace =
      some keyGenA ∧
    (encrypt_with_key envKeyGenFails world0 7 nameK1 keyPEM optsA).outcome =
      .raised .rb_eDecryptionError
        (raisedMessage "failed to generate session key"
          (encrypt_with_key envKeyGenFails world0 7 nameK1 keyPEM optsA).frame.lastError) :=
  ⟨by decide,
   (session_key_failure_category envKeyGenFails world0 7 nameK1 keyPEM optsA keyGenA
     (by decide)).1 (by decide)⟩

/-- C6: the call returns nil exactly when no step failed and raises otherwise;
the raised message is the message of the first failing step when the
last-error slot is empty, and that message followed by ", XmlSec error: " and
the stored diagnostic when it is not; in both cases the raised message starts
with the step message. -/
theorem raises_iff_step_failed (env : Env) (w : World) (self : Nat) (n k o : VALUE) :
    let r := encrypt_with_key env w self n k o
    (r.outcome = .returned ↔ failedCall r.frame.trace = none) ∧
    (∀ cls msg, r.outcome = .raised cls msg →
      ∃ c, failedCall r.frame.trace = some c ∧
        msg = raisedMessage (stepMessage env n k o c) r.frame.lastError ∧
        ∃ suffix, msg = stepMessage env n k o c ++ suffix) :=
  (encrypt_paths env w self n k o _ rfl).2.2.2.2.1

/-- C7, counterexample: with an empty key, valid options and a key name, the
first failing step is key manager provisioning, and at that moment template
nodes have already been created. -/
theorem empty_key_counterexample :
    failedCall (encrypt_with_key envOk world0 7 nameK1 (.T_STRING "")
      optsA).frame.trace = some (.createKeyManagerWithSingleKey "" 0 (some "k1")) ∧
    templateOps (before Call.isProvision
      (encrypt_with_key envOk world0 7 nameK1 (.T_STRING "")
        optsA).frame.trace) ≠ [] := by
  decide

/-- C7, amended: `encrypt_with_key` does not examine the key bytes itself.  For
a call with the empty key whose first failing step is key manager
provisioning, the provisioner received the empty key with length 0 after the
template nodes EncryptedData, CipherValue, KeyInfo (and X509Data, KeyName when
requested) had been created; no key manager and no encryption context has been
created; the cleanup releases the template root; and the call raises the error
reported by the provisioner. -/
theorem empty_key_fails_at_provisioning (env : Env) (w : World) (self : Nat) (n o : VALUE)
    (key : String) (len : Nat) (name : Option String)
    (h : failedCall (encrypt_with_key env w self n (.T_STRING "") o).frame.trace =
      some (.createKeyManagerWithSingleKey key len name)) :
    let r := encrypt_with_key env w self n (.T_STRING "") o
    key = "" ∧ len = 0 ∧
      (∃ options, env.GetXmlEncOptions o = .ok options ∧
        templateOps (before Call.isProvision r.frame.trace) =
        [(.xmlSecTmplEncDataCreate options.block_encryption .xmlSecTypeEncElement, true),
         (.xmlSecTmplEncDataEnsureCipherValue .EncryptedData, true),
         (.xmlSecTmplEncDataEnsureKeyInfo .EncryptedData, true)]
        ++ (if NIL_P (rb_hash_aref o "cert") = true then []
            else [(.xmlSecTmplKeyInfoAddX509Data .KeyInfo, true)])
        ++ (if NIL_P n = true then [] else [(.xmlSecTmplKeyInfoAddKeyName .KeyInfo, true)])) ∧
      succeeded Call.isProvision r.frame.trace = false ∧
      invoked Call.isCtxCreate r.frame.trace = false ∧
      invoked (Call.isFree .EncryptedData) r.frame.trace = true ∧
      r.outcome = .raised (helperClass (env.createKeyManagerWithSingleKey key len name))
        (raisedMessage (helperMessage (env.createKeyManagerWithSingleKey key len name))
          r.frame.lastError) := by
  obtain ⟨h1, h2, h3⟩ :=
    (encrypt_paths env w self n (.T_STRING "") o _ rfl).2.2.2.2.2.1 key len name h
  exact ⟨h1, h2.trans RSTRING_LEN_empty, h3⟩

/-- C7, witness: the empty key with the
options of scenario A and a provisioner that rejects an empty key. -/
theorem empty_key_fails_at_provisioning_witness :
    failedCall (encrypt_with_key envOk world0 7 nameK1 (.T_STRING "") optsA).frame.trace =
      some (.createKeyManagerWithSingleKey "" 0 (some "k1")) ∧
    invoked (Call.isFree .EncryptedData)
      (encrypt_with_key envOk world0 7 nameK1 (.T_STRING "") optsA).frame.trace = true :=
  ⟨by decide,
   (empty_key_fails_at_provisioning envOk world0 7 nameK1 optsA "" 0 (some "k1")
     (by decide)).2.2.2.2.2.1⟩

/-- C10, counterexample: a call in which key manager provisioning fails and in
which the template root has nevertheless been created before. -/
theorem manager_before_template_counterexample :
    failedCall (encrypt_with_key envNoManager world0 7 .Qnil keyPEM
      optsA).frame.trace = some (.createKeyManagerWithSingleKey "PEM" 3 none) ∧
    succeeded Call.isEncDataCreate
      (before Call.isProvision
        (encrypt_with_key envNoManager world0 7 .Qnil keyPEM
          optsA).frame.trace) = true := by
  decide

/-- C10, amended: the template nodes are built before the key manager.  In every
call that reaches key manager provisioning, the template calls made before it
are EncryptedData, CipherValue, KeyInfo (and X509Data, KeyName when requested),
all successful; when provisioning then fails, the cleanup releases the
template root and no encryption context is created. -/
theorem template_built_before_key_manager (env : Env) (w : World) (self : Nat)
    (n k o : VALUE)
    (h : invoked Call.isProvision (encrypt_with_key env w self n k o).frame.trace = true) :
    let r := encrypt_with_key env w self n k o
    (∃ options, env.GetXmlEncOptions o = .ok options ∧
        templateOps (before Call.isProvision r.frame.trace) =
        [(.xmlSecTmplEncDataCreate options.block_encryption .xmlSecTypeEncElement, true),
         (.xmlSecTmplEncDataEnsureCipherValue .EncryptedData, true),
         (.xmlSecTmplEncDataEnsureKeyInfo .EncryptedData, true)]
        ++ (if NIL_P (rb_hash_aref o "cert") = true then []
            else [(.xmlSecTmplKeyInfoAddX509Data .KeyInfo, true)])
        ++ (if NIL_P n = true then [] else [(.xmlSecTmplKeyInfoAddKeyName .KeyInfo, true)])) ∧
      (succeeded Call.isProvision r.frame.trace = false →
        invoked (Call.isFree .EncryptedData) r.frame.trace = true ∧
        invoked Call.isCtxCreate r.frame.trace = false) :=
  (encrypt_paths env w self n k o _ rfl).2.2.2.2.2.2.1 h

/-- C10, witness: a valid key and a key
manager that cannot be built. -/
theorem template_built_before_key_manager_witness :
    invoked Call.isProvision
      (encrypt_with_key envNoManager world0 7 .Qnil keyPEM optsA).frame.trace = true ∧
    invoked (Call.isFree .EncryptedData)
      (encrypt_with_key envNoManager world0 7 .Qnil keyPEM optsA).frame.trace = true :=
  ⟨by decide,
   ((template_built_before_key_manager envNoManager world0 7 .Qnil keyPEM optsA
     (by decide)).2 (by decide)).1⟩

/-- C4, the code at the failing input: when adding the X509Data node fails the
call raises the signing error class, whereas when creating the template root
fails it raises the encryption error class; the two template steps do not
raise the same class. -/
theorem x509_step_raises_signing_error :
    (encrypt_with_key envX509Fails world0 7 nameK1 keyPEM optsB).outcome =
      .raised .rb_eSigningError "failed to add X509Data node, XmlSec error: xmlsec failure" ∧
    (encrypt_with_key envTemplateFails world0 7 nameK1 keyPEM
      optsB).outcome =
      .raised .rb_eEncryptionError
        "failed to create encryption template, XmlSec error: xmlsec failure" := by
  decide

/-- C8, the code at the failing input: when the key argument is not a string,
`Check_Type` raises right after the reset of the error slot; the cleanup
section is skipped, the default error callback is not restored and the storing
callback stays installed. -/
theorem type_check_rejection_skips_callback_restore :
    (encrypt_with_key envOk world0 7 nameK1 (.T_FIXNUM 42) optsA).outcome =
      .raised .rb_eTypeError "wrong argument type Integer (expected String)" ∧
    (encrypt_with_key envOk world0 7 nameK1 (.T_FIXNUM 42) optsA).frame.trace =
      [(.resetXmlSecError, true), (.Check_Type .rb_rsa_key .T_STRING, false)] ∧
    invoked Call.isRestoreCallback
      (encrypt_with_key envOk world0 7 nameK1 (.T_FIXNUM 42) optsA).frame.trace =
      false ∧
    (encrypt_with_key envOk world0 7 nameK1 (.T_FIXNUM 42) optsA).frame.callback =
      .storeErrorCallback := by
  decide

/-- C9, the code at the failing inputs: when the encryption primitive fails, and
when adding the CipherValue under EncryptedKey fails, the cleanup releases the
EncryptedKey node twice: once by `xmlFreeNode(encKeyNode)` and once more when
`xmlFreeNode(encDataNode)` releases everything attached below the template
root. -/
theorem encrypted_key_released_twice :
    releaseCount
      (encrypt_with_key envEncryptFails world0 7 nameK1 keyPEM
        optsA).frame.trace .EncryptedKey = 2 ∧
    releaseCount
      (encrypt_with_key envKeyCipherValueFails world0 7 nameK1 keyPEM
        optsA).frame.trace .EncryptedKey = 2 := by
  decide

end XmlSecEncrypt
